import Mathlib

/-!
Verification of the Vector-Matching candidate/vacancy pipeline.

Shallow embedding of the pipeline code in `vector_matching_app/tasks.py`,
`vector_matching_app/views.py` and `vector_matching_app/models.py`:
pure Python helpers become Lean functions, database rows become records,
database passes become explicit state transformers, and external services
(LLM, geocoding providers, database cursors) become explicit parameters
describing their outcomes.  Machine floats are idealized as real numbers;
Python strings are Lean strings manipulated through their character lists.
-/

/-! ### String helpers mirroring Python's `str.lower`, `str.strip`, `in`,
`str.split(',')[0]` and `str.replace(' ', '')` -/

/-- Character-wise lowercasing, modelling Python's `str.lower()`. -/
def lowerChars (l : List Char) : List Char := l.map Char.toLower

/-- Remove whitespace from both ends, modelling Python's `str.strip()`. -/
def stripChars (l : List Char) : List Char :=
  ((l.dropWhile Char.isWhitespace).reverse.dropWhile Char.isWhitespace).reverse

/-- `s.lower()` on strings. -/
def pyLower (s : String) : String := ⟨lowerChars s.data⟩

/-- `s.strip()` on strings. -/
def pyStrip (s : String) : String := ⟨stripChars s.data⟩

/-- Python's substring test `sub in s`. -/
def strContains (sub s : String) : Bool := decide (sub.data <:+: s.data)

/-- Python's `s.split(',')[0]`: the characters before the first comma. -/
def firstCommaPart (s : String) : String := ⟨s.data.takeWhile (fun c => c ≠ ',')⟩

/-- Python's `s.replace(' ', '')`: drop every space. -/
def removeSpaces (s : String) : String := ⟨s.data.filter (fun c => c ≠ ' ')⟩

/-- Truthiness of an optional string column: Python treats both `None` and
the empty string as falsy. -/
def strTruthy : Option String → Bool
  | none => false
  | some s => !s.isEmpty

/-! ### Values appearing in the parsed LLM JSON (`parse_cv_to_fields`) -/

/-- A JSON/Python value as handled by `parse_cv_to_fields`: a string, an
integer, or a list of strings (for `functietitels`). -/
inductive PyVal where
  | pstr (s : String)
  | pint (n : ℤ)
  | plist (l : List String)
deriving DecidableEq

/-- `safe_get(data, key, default)` from `parse_cv_to_fields`
(tasks.py lines 125-129): a missing or `None` value, or a blank string,
is replaced by the default. -/
def safe_get (data : String → Option PyVal) (key : String) (dflt : Option PyVal) :
    Option PyVal :=
  match data key with
  | none => dflt
  | some v =>
    match v with
    | PyVal.pstr s => if (pyStrip s).isEmpty then dflt else some (PyVal.pstr s)
    | v => some v

/-! ### Education-level normalization (`normalize_education_level`,
tasks.py lines 131-164) -/

/-- The priority-ordered keyword table of `normalize_education_level`:
the `if`/`elif` chain of tasks.py lines 139-164, first hit wins. -/
def eduTable : List (List String × String) :=
  [ (["vmbo", "lbo", "vbo", "mavo"], "VMBO"),
    (["havo", "5-jarig"], "HAVO"),
    (["vwo", "atheneum", "gymnasium"], "VWO"),
    (["mbo", "roc", "niveau 2", "niveau 3", "niveau 4"], "MBO"),
    (["hbo", "hogeschool", "bachelor", "bsc", "ba"], "HBO"),
    (["wo", "universiteit", "master", "msc", "ma", "phd", "doctoraat"], "WO") ]

/-- `normalize_education_level(level)` (tasks.py lines 131-164): a `None` or
non-string or falsy (empty) input maps to `"Overige"`; otherwise the input is
lowercased and stripped and matched by substring containment against
`eduTable` in order; no hit maps to `"Overige"`. -/
def normalize_education_level (level : Option PyVal) : String :=
  match level with
  | some (PyVal.pstr s) =>
    if s = "" then "Overige"
    else
      match eduTable.find? (fun kv => kv.1.any (fun k => strContains k (pyStrip (pyLower s)))) with
      | some kv => kv.2
      | none => "Overige"
  | _ => "Overige"

/-! ### Normalized extraction result (`parse_cv_to_fields`,
tasks.py lines 166-177) -/

/-- The normalized `extracted_data` dict built at tasks.py lines 166-177.
Every key of the fixed schema is a field; `none` models Python `None`. -/
structure ExtractedData where
  volledige_naam : Option PyVal
  email : Option PyVal
  telefoonnummer : Option PyVal
  straat : Option PyVal
  huisnummer : Option PyVal
  postcode : Option PyVal
  woonplaats : Option PyVal
  opleidingsniveau : String
  functietitels : Option PyVal
  jaren_ervaring : Option PyVal
deriving DecidableEq

/-- The normalization step of `parse_cv_to_fields` (tasks.py lines 166-177):
apply `safe_get` with the per-key defaults of the source to the parsed LLM
response `data`. -/
def normalizeExtracted (data : String → Option PyVal) : ExtractedData :=
  { volledige_naam := safe_get data "volledige_naam" (some (PyVal.pstr "Onbekend")),
    email := safe_get data "email" none,
    telefoonnummer := safe_get data "telefoonnummer" none,
    straat := safe_get data "straat" none,
    huisnummer := safe_get data "huisnummer" none,
    postcode := safe_get data "postcode" none,
    woonplaats := safe_get data "woonplaats" none,
    opleidingsniveau := normalize_education_level (safe_get data "opleidingsniveau" none),
    functietitels := safe_get data "functietitels" (some (PyVal.plist [])),
    jaren_ervaring := safe_get data "jaren_ervaring" (some (PyVal.pint 0)) }

/-! ### Helper lemmas for the education normalizer -/

/-- The output of `normalize_education_level` always lies in the closed set of
7 categories. -/
lemma normalize_education_level_mem (level : Option PyVal) :
    normalize_education_level level ∈
      ["VMBO", "HAVO", "VWO", "MBO", "HBO", "WO", "Overige"] := by
  match level with
  | none => simp [normalize_education_level]
  | some (PyVal.pint n) => simp [normalize_education_level]
  | some (PyVal.plist l) => simp [normalize_education_level]
  | some (PyVal.pstr s) =>
    by_cases hs : s = ""
    · simp [normalize_education_level, hs]
    · rcases hf : eduTable.find?
        (fun kv => kv.1.any (fun k => strContains k (pyStrip (pyLower s)))) with _ | kv
      · simp [normalize_education_level, hs, hf]
      · have hm : kv ∈ eduTable := List.mem_of_find?_eq_some hf
        have : normalize_education_level (some (PyVal.pstr s)) = kv.2 := by
          simp [normalize_education_level, hs, hf]
        rw [this]
        fin_cases hm <;> decide

/-- `safe_get` with a present default never produces `None`. -/
lemma safe_get_isSome (data : String → Option PyVal) (key : String)
    (dflt : Option PyVal) (h : dflt.isSome = true) :
    (safe_get data key dflt).isSome = true := by
  unfold safe_get
  rcases data key with _ | v
  · exact h
  · rcases v with s | n | l
    · by_cases hb : (pyStrip s).isEmpty
      · simp [hb, h]
      · simp [hb]
    · simp
    · simp
/-- C8: `normalize_education_level` is a pure total function; inputs equal up
to case give equal outputs; the output is one of the 7 closed categories; any
input whose lowered, stripped text contains none of the table's keywords maps
to the catch-all `"Overige"`. -/
theorem normalize_education_level_spec (s t : String) :
    (pyLower s = pyLower t →
      normalize_education_level (some (PyVal.pstr s)) =
        normalize_education_level (some (PyVal.pstr t))) ∧
    normalize_education_level (some (PyVal.pstr s)) ∈
      ["VMBO", "HAVO", "VWO", "MBO", "HBO", "WO", "Overige"] ∧
    ((∀ kw ∈ eduTable.flatMap Prod.fst,
        strContains kw (pyStrip (pyLower s)) = false) →
      normalize_education_level (some (PyVal.pstr s)) = "Overige") := by
  refine ⟨?_, normalize_education_level_mem _, ?_⟩
  · intro h
    have hnil : s = "" ↔ t = "" := by
      rw [String.ext_iff, String.ext_iff]
      have hd : lowerChars s.data = lowerChars t.data := congrArg String.data h
      constructor <;> intro hx
      · have : lowerChars t.data = [] := by rw [← hd, hx]; rfl
        simpa [lowerChars] using this
      · have : lowerChars s.data = [] := by rw [hd, hx]; rfl
        simpa [lowerChars] using this
    by_cases hs : s = ""
    · have ht : t = "" := hnil.mp hs
      simp [normalize_education_level, hs, ht]
    · have ht : ¬t = "" := fun htt => hs (hnil.mpr htt)
      simp only [normalize_education_level, if_neg hs, if_neg ht, h]
  · intro hno
    by_cases hs : s = ""
    · simp [normalize_education_level, hs]
    · have hf : eduTable.find?
        (fun kv => kv.1.any (fun k => strContains k (pyStrip (pyLower s)))) = none := by
        rw [List.find?_eq_none]
        intro kv hkv
        have hfalse : kv.1.any (fun k => strContains k (pyStrip (pyLower s))) = false := by
          rw [List.any_eq_false]
          intro k hk hck
          have := hno k (List.mem_flatMap.mpr ⟨kv, hkv, hk⟩)
          rw [this] at hck
          exact Bool.false_ne_true hck
        simp [hfalse]
      simp [normalize_education_level, hs, hf]

/-- C8 witness: concrete instances of the three parts. -/
theorem normalize_education_level_spec_witness :
    normalize_education_level (some (PyVal.pstr "MBO Niveau 4")) =
      normalize_education_level (some (PyVal.pstr "mbo niveau 4")) ∧
    normalize_education_level (some (PyVal.pstr "Hogeschool Utrecht")) ∈
      ["VMBO", "HAVO", "VWO", "MBO", "HBO", "WO", "Overige"] ∧
    normalize_education_level (some (PyVal.pstr "geen")) = "Overige" :=
  ⟨(normalize_education_level_spec "MBO Niveau 4" "mbo niveau 4").1 (by decide),
   (normalize_education_level_spec "Hogeschool Utrecht" "x").2.1,
   (normalize_education_level_spec "geen" "x").2.2 (by decide)⟩
/-- C6 counterexample: when the LLM response omits every key, the normalized
`email` (and the other contact/address fields) is Python `None`, not a safe
default value. -/
theorem normalizeExtracted_missing_email_is_none :
    (normalizeExtracted (fun _ => none)).email = none ∧
    (normalizeExtracted (fun _ => none)).telefoonnummer = none ∧
    (normalizeExtracted (fun _ => none)).straat = none ∧
    (normalizeExtracted (fun _ => none)).huisnummer = none ∧
    (normalizeExtracted (fun _ => none)).postcode = none ∧
    (normalizeExtracted (fun _ => none)).woonplaats = none :=
  ⟨rfl, rfl, rfl, rfl, rfl, rfl⟩

/-- C6 (amended): every key of the fixed schema is present in the normalized
output; name, job titles, years of experience and education level always carry
non-`None` safe defaults (`"Onbekend"`, `[]`, `0`, `"Overige"`), while the six
contact/address keys default to `None` when the LLM omits or blanks them. -/
theorem normalizeExtracted_defaults (data : String → Option PyVal) :
    (normalizeExtracted data).volledige_naam.isSome = true ∧
    (normalizeExtracted data).functietitels.isSome = true ∧
    (normalizeExtracted data).jaren_ervaring.isSome = true ∧
    (normalizeExtracted data).opleidingsniveau ∈
      ["VMBO", "HAVO", "VWO", "MBO", "HBO", "WO", "Overige"] ∧
    (data "volledige_naam" = none →
      (normalizeExtracted data).volledige_naam = some (PyVal.pstr "Onbekend")) ∧
    (data "functietitels" = none →
      (normalizeExtracted data).functietitels = some (PyVal.plist [])) ∧
    (data "jaren_ervaring" = none →
      (normalizeExtracted data).jaren_ervaring = some (PyVal.pint 0)) ∧
    (data "opleidingsniveau" = none →
      (normalizeExtracted data).opleidingsniveau = "Overige") ∧
    (data "email" = none → (normalizeExtracted data).email = none) ∧
    (data "email" = some (PyVal.pstr "   ") →
      (normalizeExtracted data).email = none) := by
  refine ⟨safe_get_isSome _ _ _ rfl, safe_get_isSome _ _ _ rfl,
    safe_get_isSome _ _ _ rfl, normalize_education_level_mem _,
    ?_, ?_, ?_, ?_, ?_, ?_⟩
  all_goals intro h
  all_goals simp [normalizeExtracted, safe_get, h, normalize_education_level]
  · decide

/-- C6 witness: the amended defaults evaluated on the empty LLM response and
on a blank email. -/
theorem normalizeExtracted_defaults_witness :
    (normalizeExtracted (fun _ => none)).volledige_naam = some (PyVal.pstr "Onbekend") ∧
    (normalizeExtracted (fun _ => none)).functietitels = some (PyVal.plist []) ∧
    (normalizeExtracted (fun _ => none)).jaren_ervaring = some (PyVal.pint 0) ∧
    (normalizeExtracted (fun _ => none)).opleidingsniveau = "Overige" ∧
    (normalizeExtracted (fun k => if k = "email" then some (PyVal.pstr "   ") else none)).email
      = none :=
  ⟨(normalizeExtracted_defaults _).2.2.2.2.1 rfl,
   (normalizeExtracted_defaults _).2.2.2.2.2.1 rfl,
   (normalizeExtracted_defaults _).2.2.2.2.2.2.1 rfl,
   (normalizeExtracted_defaults _).2.2.2.2.2.2.2.1 rfl,
   (normalizeExtracted_defaults _).2.2.2.2.2.2.2.2.2 rfl⟩
/-! ### Duplicate detection in `parse_cv_to_fields` (tasks.py lines 179-206)
and the Candidate table

A candidate row carries the columns that the duplicate check reads or
writes; the row order of a database list models the query order of
`Candidate.objects` (`.first()` picks the first match). -/

structure CandRow where
  id : ℕ
  name : Option String
  email : Option String
  embed_status : String
  error_message : String
deriving DecidableEq

/-- `Candidate.objects.filter(email=email).exclude(id=candidate_id).first()`:
case-sensitive exact email match, excluding the row being processed. -/
def firstEmailMatch (db : List CandRow) (selfId : ℕ) (e : String) : Option CandRow :=
  db.find? (fun r => r.email == some e && r.id != selfId)

/-- `Candidate.objects.filter(name__iexact=name.strip()).exclude(id=candidate_id).first()`:
case-insensitive exact name match against the stripped extracted name. -/
def firstNameMatch (db : List CandRow) (selfId : ℕ) (nm : String) : Option CandRow :=
  db.find? (fun r =>
    match r.name with
    | some s => pyLower s == pyLower (pyStrip nm) && r.id != selfId
    | none => false)

/-- The email branch of the duplicate check (tasks.py lines 187-191):
only entered when `email and email.strip()` is truthy; on a hit it pairs the
matching row with the reason text of the source. -/
def emailDupHit (db : List CandRow) (selfId : ℕ) (email : Option String) :
    Option (CandRow × String) :=
  match email with
  | some e =>
    if !e.isEmpty && !(pyStrip e).isEmpty then
      (firstEmailMatch db selfId e).map
        (fun o => (o, "E-mailadres " ++ e ++ " bestaat al bij kandidaat " ++ toString o.id))
    else none
  | none => none

/-- The name branch of the duplicate check (tasks.py lines 193-199), only
reached when the email branch found nothing. -/
def nameDupHit (db : List CandRow) (selfId : ℕ) (nm : String) :
    Option (CandRow × String) :=
  if !nm.isEmpty && !(pyStrip nm).isEmpty then
    (firstNameMatch db selfId nm).map
      (fun o => (o, "Naam \x27" ++ nm ++ "\x27 bestaat al bij kandidaat " ++ toString o.id))
  else none

/-- The duplicate-detection step of `parse_cv_to_fields`
(tasks.py lines 179-206): email check first, name check as fallback; on a hit
the current candidate row is marked `failed` with a `Duplicaat:` message and
the function returns early (the field-update continuation for the
no-duplicate case leaves the table unchanged here and is out of scope). -/
def markFailed (r : CandRow) (reason : String) : CandRow :=
  { r with embed_status := "failed", error_message := "Duplicaat: " ++ reason }

def duplicateCheck (db : List CandRow) (selfId : ℕ) (email : Option String)
    (nm : String) : List CandRow :=
  match (emailDupHit db selfId email).orElse (fun _ => nameDupHit db selfId nm) with
  | some (_, reason) =>
    db.map (fun r => if r.id = selfId then markFailed r reason else r)
  | none => db

/-- `"Duplicaat"` occurs in `"Duplicaat: " ++ reason`. -/
lemma strContains_dup (reason : String) :
    strContains "Duplicaat" ("Duplicaat: " ++ reason) = true := by
  simp only [strContains, decide_eq_true_iff]
  exact ⟨[], ": ".data ++ reason.data, by rw [String.data_append]; rfl⟩

/-- A trailing component occurs in `a ++ (b ++ sub)`. -/
lemma strContains_tail (sub a b : String) :
    strContains sub (a ++ (b ++ sub)) = true := by
  simp only [strContains, decide_eq_true_iff]
  exact ⟨a.data ++ b.data, [], by
    simp [String.data_append, List.append_assoc]⟩
/-- C3: duplicate detection in `parse_cv_to_fields`.  If the extracted email
is truthy and another row matches it exactly (case-sensitive), the current
entity is marked `failed` with an error containing `"Duplicaat"` and the
matched row's id, and no other row is modified; if no email match exists, the
case-insensitive name match triggers the same outcome.  The email branch is
checked first. -/
theorem parse_cv_duplicate_detection (db : List CandRow) (selfId : ℕ)
    (email : Option String) (nm : String) :
    (∀ e o, email = some e → (!e.isEmpty && !(pyStrip e).isEmpty) = true →
      firstEmailMatch db selfId e = some o →
      (∀ r ∈ duplicateCheck db selfId email nm, r.id = selfId →
        r.embed_status = "failed" ∧
        strContains "Duplicaat" r.error_message = true ∧
        strContains (toString o.id) r.error_message = true) ∧
      (∀ r ∈ db, r.id ≠ selfId → r ∈ duplicateCheck db selfId email nm)) ∧
    ((∀ e, email = some e → (!e.isEmpty && !(pyStrip e).isEmpty) = true →
        firstEmailMatch db selfId e = none) →
      ∀ o, (!nm.isEmpty && !(pyStrip nm).isEmpty) = true →
      firstNameMatch db selfId nm = some o →
      (∀ r ∈ duplicateCheck db selfId email nm, r.id = selfId →
        r.embed_status = "failed" ∧
        strContains "Duplicaat" r.error_message = true ∧
        strContains (toString o.id) r.error_message = true) ∧
      (∀ r ∈ db, r.id ≠ selfId → r ∈ duplicateCheck db selfId email nm)) := by
  constructor
  · intro e o he htr hfind
    subst he
    have hck : duplicateCheck db selfId (some e) nm =
        db.map (fun r => if r.id = selfId then
          markFailed r ("E-mailadres " ++ e ++ " bestaat al bij kandidaat " ++ toString o.id)
          else r) := by
      simp [duplicateCheck, emailDupHit, htr, hfind, Option.orElse]
    constructor
    · intro r hr hid
      rw [hck] at hr
      rcases List.mem_map.mp hr with ⟨r0, hr0, heq⟩
      by_cases h0 : r0.id = selfId
      · rw [if_pos h0] at heq
        subst heq
        refine ⟨rfl, strContains_dup _, ?_⟩
        exact strContains_tail (toString o.id) "Duplicaat: "
          ("E-mailadres " ++ e ++ " bestaat al bij kandidaat ")
      · rw [if_neg h0] at heq
        subst heq
        exact absurd hid h0
    · intro r hr hne
      rw [hck]
      refine List.mem_map.mpr ⟨r, hr, ?_⟩
      rw [if_neg hne]
  · intro hnone o htr hfind
    have hehit : emailDupHit db selfId email = none := by
      rcases hemail : email with _ | e
      · rfl
      · by_cases het : (!e.isEmpty && !(pyStrip e).isEmpty) = true
        · simp [emailDupHit, het, hnone e hemail het]
        · simp [emailDupHit, het]
    have hck : duplicateCheck db selfId email nm =
        db.map (fun r => if r.id = selfId then
          markFailed r ("Naam \x27" ++ nm ++ "\x27 bestaat al bij kandidaat " ++ toString o.id)
          else r) := by
      simp [duplicateCheck, hehit, nameDupHit, htr, hfind, Option.orElse]
    constructor
    · intro r hr hid
      rw [hck] at hr
      rcases List.mem_map.mp hr with ⟨r0, hr0, heq⟩
      by_cases h0 : r0.id = selfId
      · rw [if_pos h0] at heq
        subst heq
        refine ⟨rfl, strContains_dup _, ?_⟩
        exact strContains_tail (toString o.id) "Duplicaat: "
          ("Naam \x27" ++ nm ++ "\x27 bestaat al bij kandidaat ")
      · rw [if_neg h0] at heq
        subst heq
        exact absurd hid h0
    · intro r hr hne
      rw [hck]
      refine List.mem_map.mpr ⟨r, hr, ?_⟩
      rw [if_neg hne]

/-- An existing candidate with email `a@x.nl`. -/
def demoRow1 : CandRow := ⟨1, some "Jan Jansen", some "a@x.nl", "completed", ""⟩

/-- The candidate currently being processed. -/
def demoRow2 : CandRow := ⟨2, none, none, "processing", ""⟩

/-- The demo candidate table. -/
def demoDb : List CandRow := [demoRow1, demoRow2]

/-- The current candidate after the duplicate check marks it failed. -/
def demoDupRow : CandRow :=
  ⟨2, none, none, "failed", "Duplicaat: E-mailadres a@x.nl bestaat al bij kandidaat 1"⟩

/-- C3 witness: uploading a second CV whose extracted email is `a@x.nl` marks
the new entity failed with a `Duplicaat` message citing candidate 1, leaving
candidate 1 untouched. -/
theorem parse_cv_duplicate_detection_witness :
    demoDupRow.embed_status = "failed" ∧
    strContains "Duplicaat" demoDupRow.error_message = true ∧
    strContains "1" demoDupRow.error_message = true ∧
    demoRow1 ∈ duplicateCheck demoDb 2 (some "a@x.nl") "Piet" :=
  have h := (parse_cv_duplicate_detection demoDb 2 (some "a@x.nl") "Piet").1
    "a@x.nl" demoRow1 rfl (by decide) (by decide)
  ⟨(h.1 demoDupRow (by decide) rfl).1,
   (h.1 demoDupRow (by decide) rfl).2.1,
   (h.1 demoDupRow (by decide) rfl).2.2,
   h.2 demoRow1 (by decide) (by decide)⟩
/-! ### Embedding write path (`embed_profile_text`, tasks.py lines 304-334;
`generate_vacature_embedding`, tasks.py lines 664-694)

Both functions persist an embedding with the same try/except ladder over a
raw database cursor; the two cast outcomes are modelled as booleans saying
whether the corresponding `UPDATE ... SET embedding = %s::jsonb` /
`%s::vector` statement succeeds on the current schema. -/

/-- A value written to the embedding column: the JSON serialization
(`json.dumps(embedding_list)` cast with `::jsonb`) or the native pgvector
representation (`embedding_list` cast with `::vector`). -/
inductive WriteVal where
  | jsonbCast (l : List ℚ)
  | vectorCast (l : List ℚ)
deriving DecidableEq

/-- The embedding write path shared verbatim by `embed_profile_text` and
`generate_vacature_embedding`: first try the `::jsonb` cast; only if that
raises, try the `::vector` cast; if both raise, re-raise the vector error.
Returns the outcome together with the ordered list of attempted writes. -/
def embeddingWritePath (emb : List ℚ) (jsonbOk vectorOk : Bool) :
    Except String WriteVal × List WriteVal :=
  if jsonbOk then
    (Except.ok (WriteVal.jsonbCast emb), [WriteVal.jsonbCast emb])
  else if vectorOk then
    (Except.ok (WriteVal.vectorCast emb), [WriteVal.jsonbCast emb, WriteVal.vectorCast emb])
  else
    (Except.error "Beide casts gefaald", [WriteVal.jsonbCast emb, WriteVal.vectorCast emb])

/-- Modelled from the spec: the write order the spec describes — attempt the
storage engine's native vector representation first, and only on a
representation-specific write failure fall back to the JSON serialization.
Stated for comparison with `embeddingWritePath`, which is the code's order. -/
def embeddingWritePathSpecOrder (emb : List ℚ) (jsonbOk vectorOk : Bool) :
    Except String WriteVal × List WriteVal :=
  if vectorOk then
    (Except.ok (WriteVal.vectorCast emb), [WriteVal.vectorCast emb])
  else if jsonbOk then
    (Except.ok (WriteVal.jsonbCast emb), [WriteVal.vectorCast emb, WriteVal.jsonbCast emb])
  else
    (Except.error "Beide casts gefaald", [WriteVal.vectorCast emb, WriteVal.jsonbCast emb])

/-- C5 counterexample: when both representations would succeed, the code
writes (and only attempts) the JSONB serialization, while the spec's order
would write the native vector representation — the code's first attempt is
the JSON serialization, not the native vector type. -/
theorem embedding_write_order_counterexample :
    (embeddingWritePath [1, 2] true true).2.head? = some (WriteVal.jsonbCast [1, 2]) ∧
    (embeddingWritePathSpecOrder [1, 2] true true).2.head? =
      some (WriteVal.vectorCast [1, 2]) ∧
    WriteVal.jsonbCast ([1, 2] : List ℚ) ≠ WriteVal.vectorCast [1, 2] ∧
    (embeddingWritePath [1, 2] true true).1 = Except.ok (WriteVal.jsonbCast [1, 2]) := by
  refine ⟨rfl, rfl, ?_, rfl⟩
  decide

/-- C5 (amended): the write path attempts the JSONB serialization first and
falls back to the native vector representation only when the JSONB write
fails; when both fail, the vector error propagates. -/
theorem embedding_write_jsonb_first (emb : List ℚ) (jsonbOk vectorOk : Bool) :
    (embeddingWritePath emb jsonbOk vectorOk).2.head? = some (WriteVal.jsonbCast emb) ∧
    (WriteVal.vectorCast emb ∈ (embeddingWritePath emb jsonbOk vectorOk).2 ↔
      jsonbOk = false) ∧
    (jsonbOk = true →
      (embeddingWritePath emb jsonbOk vectorOk).1 = Except.ok (WriteVal.jsonbCast emb)) ∧
    (jsonbOk = false → vectorOk = true →
      (embeddingWritePath emb jsonbOk vectorOk).1 = Except.ok (WriteVal.vectorCast emb)) ∧
    (jsonbOk = false → vectorOk = false →
      (embeddingWritePath emb jsonbOk vectorOk).1 = Except.error "Beide casts gefaald") := by
  cases jsonbOk <;> cases vectorOk <;>
    simp [embeddingWritePath]

/-- C5 witness: the amended write-order facts evaluated at both failure
patterns of the JSONB cast. -/
theorem embedding_write_jsonb_first_witness :
    (embeddingWritePath [3] true false).1 = Except.ok (WriteVal.jsonbCast [3]) ∧
    (embeddingWritePath [3] false true).1 = Except.ok (WriteVal.vectorCast [3]) ∧
    (embeddingWritePath [3] false false).1 = Except.error "Beide casts gefaald" :=
  ⟨(embedding_write_jsonb_first [3] true false).2.2.1 rfl,
   (embedding_write_jsonb_first [3] false true).2.2.2.1 rfl rfl,
   (embedding_write_jsonb_first [3] false false).2.2.2.2 rfl rfl⟩
/-! ### Cosine similarity (`calculate_cosine_similarity`,
tasks.py lines 740-809)

The float32 vectors are idealized as lists of reals.  The string-parsing
fallbacks of the source (JSON / Python-literal parsing, returning `0.0` when
unparseable) normalize any input to such a list before the arithmetic starts
and are not modelled; the arithmetic core below follows the source exactly:
empty input yields 0, mismatched shapes yield 0, a zero L2 norm yields 0,
otherwise the dot product divided by the product of the L2 norms. -/

/-- `np.dot(vec1, vec2)` on equal-length vectors: sum of pointwise products. -/
noncomputable def dotList (a b : List ℝ) : ℝ :=
  (List.zipWith (fun x y => x * y) a b).sum

/-- `np.linalg.norm(vec)`: the L2 norm. -/
noncomputable def l2norm (a : List ℝ) : ℝ := Real.sqrt (dotList a a)

open Classical in
/-- `calculate_cosine_similarity(embedding1, embedding2)`
(tasks.py lines 740-809) on vector inputs. -/
noncomputable def calculate_cosine_similarity (a b : List ℝ) : ℝ :=
  if a.length = 0 ∨ b.length = 0 then 0
  else if a.length ≠ b.length then 0
  else if l2norm a = 0 ∨ l2norm b = 0 then 0
  else dotList a b / (l2norm a * l2norm b)

lemma dotList_comm (a b : List ℝ) : dotList a b = dotList b a := by
  unfold dotList
  rw [List.zipWith_comm_of_comm _ mul_comm]

lemma dotList_self_eq_sum_sq (a : List ℝ) :
    dotList a a = (a.map (fun x => x * x)).sum := by
  unfold dotList
  rw [List.zipWith_same]

lemma dotList_self_pos {a : List ℝ} (h : ∃ x ∈ a, x ≠ 0) : 0 < dotList a a := by
  rcases h with ⟨x, hx, hx0⟩
  rw [dotList_self_eq_sum_sq]
  have hnn : ∀ z ∈ a.map (fun y => y * y), (0:ℝ) ≤ z := by
    intro z hz
    rcases List.mem_map.mp hz with ⟨y, _, rfl⟩
    exact mul_self_nonneg y
  have hle : x * x ≤ (a.map (fun y => y * y)).sum :=
    List.single_le_sum hnn _ (List.mem_map.mpr ⟨x, hx, rfl⟩)
  exact lt_of_lt_of_le (mul_self_pos.mpr hx0) hle

/-- C2: cosine similarity is symmetric; a vector with a non-zero entry has
similarity 1 with itself; mismatched dimensions yield 0; a zero L2 norm on
either side yields 0.  The Lean model is a total function, mirroring the
source's catch-all exception handler that returns 0.0 instead of raising. -/
theorem calculate_cosine_similarity_spec (a b : List ℝ) :
    calculate_cosine_similarity a b = calculate_cosine_similarity b a ∧
    ((∃ x ∈ a, x ≠ 0) → calculate_cosine_similarity a a = 1) ∧
    (a.length ≠ b.length → calculate_cosine_similarity a b = 0) ∧
    (l2norm a = 0 ∨ l2norm b = 0 → calculate_cosine_similarity a b = 0) := by
  refine ⟨?_, ?_, ?_, ?_⟩
  · unfold calculate_cosine_similarity
    by_cases h1 : a.length = 0 ∨ b.length = 0
    · rw [if_pos h1, if_pos (Or.symm h1)]
    · rw [if_neg h1, if_neg (fun h => h1 (Or.symm h))]
      by_cases h2 : a.length = b.length
      · rw [if_neg (fun h : a.length ≠ b.length => h h2),
          if_neg (fun h : b.length ≠ a.length => h (Eq.symm h2))]
        by_cases h3 : l2norm a = 0 ∨ l2norm b = 0
        · rw [if_pos h3, if_pos (Or.symm h3)]
        · rw [if_neg h3, if_neg (fun h => h3 (Or.symm h))]
          rw [dotList_comm, mul_comm]
      · rw [if_pos h2, if_pos (fun h : b.length = a.length => h2 (Eq.symm h))]
  · intro hx
    have hpos : 0 < dotList a a := dotList_self_pos hx
    have hnil : a ≠ [] := by
      rcases hx with ⟨x, hxa, _⟩
      exact List.ne_nil_of_mem hxa
    have hnz : l2norm a ≠ 0 := ne_of_gt (Real.sqrt_pos.mpr hpos)
    unfold calculate_cosine_similarity
    rw [if_neg (fun h => hnil (List.length_eq_zero.mp (h.elim id id))),
      if_neg (fun h : a.length ≠ a.length => h rfl),
      if_neg (fun h => hnz (h.elim id id))]
    unfold l2norm
    rw [Real.mul_self_sqrt (le_of_lt hpos)]
    exact div_self (ne_of_gt hpos)
  · intro h
    unfold calculate_cosine_similarity
    by_cases h1 : a.length = 0 ∨ b.length = 0
    · rw [if_pos h1]
    · rw [if_neg h1, if_pos h]
  · intro h
    unfold calculate_cosine_similarity
    by_cases h1 : a.length = 0 ∨ b.length = 0
    · rw [if_pos h1]
    · rw [if_neg h1]
      by_cases h2 : a.length ≠ b.length
      · rw [if_pos h2]
      · rw [if_neg h2, if_pos h]

/-- C2 witness: the four parts evaluated on concrete vectors. -/
theorem calculate_cosine_similarity_spec_witness :
    calculate_cosine_similarity [1, 0] [0, 1] = calculate_cosine_similarity [0, 1] [1, 0] ∧
    calculate_cosine_similarity [1] [1] = 1 ∧
    calculate_cosine_similarity [1] [1, 2] = 0 ∧
    calculate_cosine_similarity [0] [1] = 0 :=
  ⟨(calculate_cosine_similarity_spec [1, 0] [0, 1]).1,
   (calculate_cosine_similarity_spec [1] [1]).2.1 ⟨1, by simp, one_ne_zero⟩,
   (calculate_cosine_similarity_spec [1] [1, 2]).2.2.1 (by simp),
   (calculate_cosine_similarity_spec [0] [1]).2.2.2
     (Or.inl (by simp [l2norm, dotList]))⟩
/-! ### Haversine distance (`calculate_distance_for_match`,
tasks.py lines 1058-1079)

`math.radians`, the haversine formula with Earth radius 6371 km, and
Python's `round(distance, 1)` (banker's rounding at the first decimal,
idealized over the reals). -/

/-- `math.radians(deg)`. -/
noncomputable def radians (deg : ℝ) : ℝ := deg * Real.pi / 180

open Classical in
/-- Python's `round` to the nearest integer: round half to even. -/
noncomputable def roundHalfEven (x : ℝ) : ℤ :=
  if Int.fract x = 1 / 2 then (if Even ⌊x⌋ then ⌊x⌋ else ⌊x⌋ + 1) else round x

/-- Python's `round(x, 1)`. -/
noncomputable def pyRound1 (x : ℝ) : ℝ := (roundHalfEven (x * 10) : ℝ) / 10

/-- The intermediate `a` of the haversine formula (tasks.py lines 1072-1073). -/
noncomputable def haversineA (lat1 lon1 lat2 lon2 : ℝ) : ℝ :=
  Real.sin ((radians lat2 - radians lat1) / 2) ^ 2 +
    Real.cos (radians lat1) * Real.cos (radians lat2) *
      Real.sin ((radians lon2 - radians lon1) / 2) ^ 2

/-- The distance computed at tasks.py lines 1058-1079:
`round(6371 * (2 * asin(sqrt(a))), 1)`. -/
noncomputable def haversine_distance (lat1 lon1 lat2 lon2 : ℝ) : ℝ :=
  pyRound1 (6371 * (2 * Real.arcsin (Real.sqrt (haversineA lat1 lon1 lat2 lon2))))

lemma roundHalfEven_nonneg {x : ℝ} (hx : 0 ≤ x) : 0 ≤ roundHalfEven x := by
  unfold roundHalfEven
  by_cases h : Int.fract x = 1 / 2
  · rw [if_pos h]
    have hf : 0 ≤ ⌊x⌋ := Int.floor_nonneg.mpr hx
    by_cases he : Even ⌊x⌋
    · rw [if_pos he]; exact hf
    · rw [if_neg he]; omega
  · rw [if_neg h, round_eq]
    exact Int.floor_nonneg.mpr (by linarith)

lemma roundHalfEven_zero : roundHalfEven 0 = 0 := by
  have h : Int.fract (0 : ℝ) ≠ 1 / 2 := by
    rw [Int.fract_zero]; norm_num
  unfold roundHalfEven
  rw [if_neg h, round_zero]

lemma pyRound1_nonneg {x : ℝ} (hx : 0 ≤ x) : 0 ≤ pyRound1 x := by
  unfold pyRound1
  have : (0 : ℝ) ≤ (roundHalfEven (x * 10) : ℝ) := by
    exact_mod_cast roundHalfEven_nonneg (by linarith)
  linarith

lemma pyRound1_zero : pyRound1 0 = 0 := by
  unfold pyRound1
  rw [show (0 : ℝ) * 10 = 0 by ring, roundHalfEven_zero]
  simp

lemma haversineA_comm (lat1 lon1 lat2 lon2 : ℝ) :
    haversineA lat1 lon1 lat2 lon2 = haversineA lat2 lon2 lat1 lon1 := by
  unfold haversineA
  have hsin : ∀ x y : ℝ, Real.sin ((x - y) / 2) ^ 2 = Real.sin ((y - x) / 2) ^ 2 := by
    intro x y
    rw [show (x - y) / 2 = -((y - x) / 2) by ring, Real.sin_neg]
    ring
  rw [hsin (radians lat2) (radians lat1), hsin (radians lon2) (radians lon1),
    mul_comm (Real.cos (radians lat1))]

/-- C9 counterexample: the rounded haversine distance between (90, 0) and
(90, 50) — two distinct coordinate pairs, both at the north pole — is 0, so a
zero distance does not imply identical coordinates. -/
theorem haversine_zero_nonidentical :
    haversine_distance 90 0 90 50 = 0 ∧
    ((90 : ℝ), (0 : ℝ)) ≠ ((90 : ℝ), (50 : ℝ)) := by
  constructor
  · have hA : haversineA 90 0 90 50 = 0 := by
      unfold haversineA
      have h90 : radians 90 = Real.pi / 2 := by unfold radians; ring
      rw [h90, Real.cos_pi_div_two]
      simp
    unfold haversine_distance
    rw [hA, Real.sqrt_zero, Real.arcsin_zero,
      show (6371 : ℝ) * (2 * 0) = 0 by ring, pyRound1_zero]
  · intro h
    have : (0 : ℝ) = 50 := congrArg Prod.snd h
    norm_num at this

/-- C9 (amended): the rounded haversine distance is symmetric, non-negative,
and zero on identical coordinate pairs; zero output does not imply identical
inputs (see the counterexample). -/
theorem haversine_distance_spec (lat1 lon1 lat2 lon2 : ℝ) :
    haversine_distance lat1 lon1 lat2 lon2 = haversine_distance lat2 lon2 lat1 lon1 ∧
    0 ≤ haversine_distance lat1 lon1 lat2 lon2 ∧
    haversine_distance lat1 lon1 lat1 lon1 = 0 := by
  refine ⟨?_, ?_, ?_⟩
  · unfold haversine_distance
    rw [haversineA_comm]
  · unfold haversine_distance
    apply pyRound1_nonneg
    have h1 : 0 ≤ Real.arcsin (Real.sqrt (haversineA lat1 lon1 lat2 lon2)) :=
      Real.arcsin_nonneg.mpr (Real.sqrt_nonneg _)
    linarith
  · have hA : haversineA lat1 lon1 lat1 lon1 = 0 := by
      unfold haversineA
      simp
    unfold haversine_distance
    rw [hA, Real.sqrt_zero, Real.arcsin_zero,
      show (6371 : ℝ) * (2 * 0) = 0 by ring, pyRound1_zero]
/-! ### Geocoding stage (`geocode_candidate`, tasks.py lines 402-531)

The candidate columns that the stage reads or writes, the outcome of a
single provider HTTP attempt (success with coordinates, nothing found, or a
raised exception — the latter two are both skipped by the per-attempt
`try/except ... continue` of the source), and `Candidate.update_status`
from models.py lines 107-113. -/

structure GeoCand where
  city : Option String
  postal_code : Option String
  street : Option String
  house_number : Option String
  latitude : Option ℝ
  longitude : Option ℝ
  embed_status : String
  processing_step : String
  error_message : String

/-- Outcome of one provider attempt for one address string. -/
inductive GeoResult where
  | raised (msg : String)
  | nothingFound
  | found (lat lon : ℝ)

/-- `Candidate.update_status(status, step, error)` (models.py lines 107-113):
the error message is only overwritten when a non-empty error is passed. -/
def update_status (c : GeoCand) (status step error : String) : GeoCand :=
  { c with embed_status := status
           processing_step := step
           error_message := if error = "" then c.error_message else error }

/-- One provider loop (tasks.py lines 452-483 and 486-511): try the address
candidates in order, skipping raised attempts and empty responses, stopping
at the first attempt that yields coordinates. -/
def geoTry (provider : String → GeoResult) (attempts : List String) :
    Option (ℝ × ℝ) :=
  attempts.findSome? (fun a =>
    match provider a with
    | GeoResult.found lat lon => some (lat, lon)
    | _ => none)

/-- The postcode auto-fill (tasks.py lines 409-416): when a city is present
but no postal code, look one up for the first comma part of the city and
store it on the candidate if found. -/
def autofillPostcode (c : GeoCand) (pcLookup : String → Option String) : GeoCand :=
  if strTruthy c.city && !strTruthy c.postal_code then
    match pcLookup (pyStrip (firstCommaPart (c.city.getD ""))) with
    | some p => { c with postal_code := some p }
    | none => c
  else c

/-- `short_city` (tasks.py line 419). -/
def shortCityOf (c : GeoCand) : String :=
  if strTruthy c.city then pyStrip (firstCommaPart (c.city.getD "")) else ""

/-- `address_attempts` (tasks.py lines 427-447): postcode+city when both are
truthy, then the bare city name, then the full street address when street or
house number is present. -/
def addressAttempts (c : GeoCand) (shortCity : String) : List String :=
  (if strTruthy c.postal_code && strTruthy c.city then
    [removeSpaces (c.postal_code.getD "") ++ " " ++ shortCity]
  else []) ++
  [shortCity] ++
  (if strTruthy c.street || strTruthy c.house_number then
    [String.intercalate ", "
      ((if strTruthy c.street then [c.street.getD ""] else []) ++
       (if strTruthy c.house_number then [c.house_number.getD ""] else []) ++
       (if strTruthy c.postal_code then [c.postal_code.getD ""] else []) ++
       [shortCity])]
  else [])

/-- The body of `geocode_candidate` after the initial status update and
postcode auto-fill (tasks.py lines 419-523): missing place name, a found
location, and no location found each end with status `completed`.  The outer
`except` of the source (lines 527-531) also records `completed`, so no path
yields `failed` or re-raises. -/
def geocodeCore (c1 : GeoCand) (pdok nominatim : String → GeoResult) : GeoCand :=
  if shortCityOf c1 = "" then
    update_status c1 "completed" "Geocoding" "Geen plaatsnaam"
  else
    match (geoTry pdok (addressAttempts c1 (shortCityOf c1))).orElse
        (fun _ => geoTry nominatim (addressAttempts c1 (shortCityOf c1))) with
    | some (lat, lon) =>
      { c1 with latitude := some lat
                longitude := some lon
                embed_status := "completed"
                processing_step := "Voltooid" }
    | none => update_status c1 "completed" "Geocoding" "Geen locatie gevonden"

/-- `geocode_candidate(candidate_id)` (tasks.py lines 402-531) as a state
transformer on the candidate row, parameterized by the postcode lookup and
the two providers. -/
def geocode_candidate (c : GeoCand) (pcLookup : String → Option String)
    (pdok nominatim : String → GeoResult) : GeoCand :=
  geocodeCore (autofillPostcode (update_status c "processing" "Geocoding" "") pcLookup)
    pdok nominatim

lemma geocodeCore_completed (c1 : GeoCand) (pdok nominatim : String → GeoResult) :
    (geocodeCore c1 pdok nominatim).embed_status = "completed" := by
  unfold geocodeCore
  by_cases h : shortCityOf c1 = ""
  · rw [if_pos h]; rfl
  · rw [if_neg h]
    cases hg : (geoTry pdok (addressAttempts c1 (shortCityOf c1))).orElse
        (fun _ => geoTry nominatim (addressAttempts c1 (shortCityOf c1))) with
    | none => rfl
    | some p => cases p; rfl

/-- C4: `geocode_candidate` ends with status `completed` for every candidate
and every behaviour of the postcode lookup and both providers (success,
nothing found, or raising); when a place name is present but neither provider
finds a location, the diagnostic note is `"Geen locatie gevonden"`.  The
model is a total function: no path re-raises. -/
theorem geocode_candidate_always_completed (c : GeoCand)
    (pcLookup : String → Option String) (pdok nominatim : String → GeoResult) :
    (geocode_candidate c pcLookup pdok nominatim).embed_status = "completed" ∧
    (∀ c1, c1 = autofillPostcode (update_status c "processing" "Geocoding" "") pcLookup →
      shortCityOf c1 ≠ "" →
      geoTry pdok (addressAttempts c1 (shortCityOf c1)) = none →
      geoTry nominatim (addressAttempts c1 (shortCityOf c1)) = none →
      (geocode_candidate c pcLookup pdok nominatim).error_message =
        "Geen locatie gevonden") := by
  constructor
  · exact geocodeCore_completed _ _ _
  · intro c1 hc1 hcity hp hn
    unfold geocode_candidate geocodeCore
    rw [← hc1, if_neg hcity, hp, hn]
    show (update_status c1 "completed" "Geocoding" "Geen locatie gevonden").error_message = _
    unfold update_status
    rw [if_neg (by decide : ¬("Geen locatie gevonden" = ""))]

/-- A queued candidate with only a city. -/
def demoGeoCand : GeoCand :=
  ⟨some "Utrecht", some "3511", none, none, none, none, "queued", "", ""⟩

/-- C4 witness: with both providers finding nothing, the candidate ends
`completed` with the diagnostic note. -/
theorem geocode_candidate_always_completed_witness :
    (geocode_candidate demoGeoCand (fun _ => none) (fun _ => GeoResult.nothingFound)
      (fun _ => GeoResult.nothingFound)).embed_status = "completed" ∧
    (geocode_candidate demoGeoCand (fun _ => none) (fun _ => GeoResult.nothingFound)
      (fun _ => GeoResult.nothingFound)).error_message = "Geen locatie gevonden" :=
  ⟨(geocode_candidate_always_completed demoGeoCand _ _ _).1,
   (geocode_candidate_always_completed demoGeoCand _ _ _).2 _ rfl
     (by decide) rfl rfl⟩
/-! ### Distance backfill (`calculate_distances_view`, views.py lines
1226-1295; `calculate_distance_for_match`, tasks.py lines 952-1083)

A match row with the candidate coordinates and vacancy place/postcode it
joins; the per-match body of the view's loop as a state transformer.  The
Python coordinate checks use truthiness, so `0.0` counts as absent. -/

structure DistCand where
  latitude : Option ℝ
  longitude : Option ℝ

structure DistVac where
  plaats : Option String
  postcode : Option String

structure MatchRec where
  kandidaat : DistCand
  vacature : DistVac
  afstand_km : Option ℝ
  afstand_berekend : Bool

/-- Python numeric truthiness on a nullable float column: `None` and `0.0`
are falsy. -/
def numTruthy : Option ℝ → Prop
  | none => False
  | some v => v ≠ 0

/-- `short_plaats` (tasks.py lines 965-974): `None` or an empty place, or a
place whose first comma part strips to empty, leads to an early `None`. -/
def vacShortPlaats : Option String → String
  | none => ""
  | some pl => if pl = "" then "" else pyStrip (firstCommaPart pl)

/-- `address_attempts` for the vacancy (tasks.py lines 977-985):
postcode+place when a postcode is present, then the bare place name. -/
def vacAddressAttempts (v : DistVac) (shortPlaats : String) : List String :=
  (if strTruthy v.postcode then
    [removeSpaces (v.postcode.getD "") ++ " " ++ shortPlaats]
  else []) ++
  [shortPlaats]

/-- The provider cascade for the vacancy place (tasks.py lines 987-1048):
PDOK over the address candidates, then Nominatim; the first attempt that
yields coordinates wins, even coordinates equal to zero. -/
def vacGeoLookup (v : DistVac) (pdok nominatim : String → GeoResult) :
    Option (ℝ × ℝ) :=
  (geoTry pdok (vacAddressAttempts v (vacShortPlaats v.plaats))).orElse
    (fun _ => geoTry nominatim (vacAddressAttempts v (vacShortPlaats v.plaats)))

open Classical in
/-- `calculate_distance_for_match(match)` (tasks.py lines 952-1083): `None`
when the vacancy has no usable place name, when no provider finds
coordinates, when a found coordinate is falsy (`if not lat2 or not lon2`), or
when a candidate coordinate is missing or falsy (`if not all([...])`);
otherwise the rounded haversine distance.  The catch-all `except` of the
source also returns `None`. -/
noncomputable def calculate_distance_for_match (m : MatchRec)
    (pdok nominatim : String → GeoResult) : Option ℝ :=
  if vacShortPlaats m.vacature.plaats = "" then none
  else
    match vacGeoLookup m.vacature pdok nominatim with
    | none => none
    | some (lat2, lon2) =>
      if lat2 = 0 ∨ lon2 = 0 then none
      else
        match m.kandidaat.latitude, m.kandidaat.longitude with
        | some lat1, some lon1 =>
          if lat1 = 0 ∨ lon1 = 0 then none
          else some (haversine_distance lat1 lon1 lat2 lon2)
        | _, _ => none

/-- The guard of views.py lines 1255-1256:
`match.kandidaat.latitude and match.kandidaat.longitude and
match.vacature.plaats`. -/
def hasLocGuard (m : MatchRec) : Prop :=
  numTruthy m.kandidaat.latitude ∧ numTruthy m.kandidaat.longitude ∧
    strTruthy m.vacature.plaats = true

open Classical in
/-- The per-match body of `calculate_distances_view` (views.py lines
1252-1281): with the guard satisfied, a computed distance is stored with
`afstand_berekend := true`; a `None` distance only bumps the error counter
and saves nothing; with the guard unsatisfied, a `None` distance is stored
with `afstand_berekend := true`. -/
noncomputable def process_match (m : MatchRec)
    (pdok nominatim : String → GeoResult) : MatchRec :=
  if hasLocGuard m then
    match calculate_distance_for_match m pdok nominatim with
    | some d => { m with afstand_km := some d, afstand_berekend := true }
    | none => m
  else { m with afstand_km := none, afstand_berekend := true }
/-- A match whose candidate has coordinates and whose vacancy has a place
name that no provider can geocode. -/
def demoMatchNF : MatchRec := ⟨⟨some 1, some 1⟩, ⟨some "Verwegistan", none⟩, none, false⟩

/-- C7 counterexample: for a match with `distance_computed = false`, a
candidate with coordinates and a vacancy place that fails to geocode, the
pass leaves `distance_computed = false` — it does not set it to `true`. -/
theorem distance_pass_leaves_flag_false :
    demoMatchNF.afstand_berekend = false ∧
    (process_match demoMatchNF (fun _ => GeoResult.nothingFound)
      (fun _ => GeoResult.nothingFound)).afstand_berekend = false := by
  refine ⟨rfl, ?_⟩
  have hguard : hasLocGuard demoMatchNF := ⟨one_ne_zero, one_ne_zero, rfl⟩
  have hcd : calculate_distance_for_match demoMatchNF (fun _ => GeoResult.nothingFound)
      (fun _ => GeoResult.nothingFound) = none := by
    unfold calculate_distance_for_match
    rw [if_neg (by decide : ¬(vacShortPlaats demoMatchNF.vacature.plaats = ""))]
    rw [show vacGeoLookup demoMatchNF.vacature (fun _ => GeoResult.nothingFound)
      (fun _ => GeoResult.nothingFound) = none from rfl]
  unfold process_match
  rw [if_pos hguard, hcd]
  rfl

/-- C7 (amended): the distance pass sets `distance_computed := true` and a
null distance when the guard fails, and `distance_computed := true` with the
computed distance when the guard holds and a distance is returned; but when
the guard holds and the distance computation returns `None` (unresolvable
vacancy place or falsy coordinates), the match is left unchanged, with
`distance_computed` still `false`. -/
theorem distance_pass_flag_characterization (m : MatchRec)
    (pdok nominatim : String → GeoResult) :
    (¬hasLocGuard m →
      process_match m pdok nominatim =
        { m with afstand_km := none, afstand_berekend := true }) ∧
    (hasLocGuard m → ∀ d, calculate_distance_for_match m pdok nominatim = some d →
      process_match m pdok nominatim =
        { m with afstand_km := some d, afstand_berekend := true }) ∧
    (hasLocGuard m → calculate_distance_for_match m pdok nominatim = none →
      process_match m pdok nominatim = m) := by
  refine ⟨?_, ?_, ?_⟩
  · intro h
    unfold process_match
    rw [if_neg h]
  · intro h d hd
    unfold process_match
    rw [if_pos h, hd]
  · intro h hd
    unfold process_match
    rw [if_pos h, hd]

/-- A match whose vacancy has no place name at all. -/
def demoMatchNoPlace : MatchRec := ⟨⟨some 2, some 3⟩, ⟨none, none⟩, none, false⟩

/-- A match whose vacancy geocodes to Amsterdam-like coordinates. -/
def demoMatchOk : MatchRec := ⟨⟨some 1, some 1⟩, ⟨some "Utrecht", none⟩, none, false⟩

/-- C7 witness: the three branches of the characterization on concrete
matches and providers. -/
theorem distance_pass_flag_characterization_witness :
    process_match demoMatchNoPlace (fun _ => GeoResult.nothingFound)
      (fun _ => GeoResult.nothingFound) =
      { demoMatchNoPlace with afstand_km := none, afstand_berekend := true } ∧
    process_match demoMatchOk (fun _ => GeoResult.found 52 5)
      (fun _ => GeoResult.found 52 5) =
      { demoMatchOk with afstand_km := some (haversine_distance 1 1 52 5),
                         afstand_berekend := true } ∧
    process_match demoMatchNF (fun _ => GeoResult.nothingFound)
      (fun _ => GeoResult.nothingFound) = demoMatchNF := by
  have hd : calculate_distance_for_match demoMatchOk (fun _ => GeoResult.found 52 5)
      (fun _ => GeoResult.found 52 5) = some (haversine_distance 1 1 52 5) := by
    unfold calculate_distance_for_match
    rw [if_neg (by decide : ¬(vacShortPlaats demoMatchOk.vacature.plaats = ""))]
    rw [show vacGeoLookup demoMatchOk.vacature (fun _ => GeoResult.found 52 5)
      (fun _ => GeoResult.found 52 5) = some (52, 5) from rfl]
    norm_num [demoMatchOk]
  have hnone : calculate_distance_for_match demoMatchNF (fun _ => GeoResult.nothingFound)
      (fun _ => GeoResult.nothingFound) = none := by
    unfold calculate_distance_for_match
    rw [if_neg (by decide : ¬(vacShortPlaats demoMatchNF.vacature.plaats = ""))]
    rw [show vacGeoLookup demoMatchNF.vacature (fun _ => GeoResult.nothingFound)
      (fun _ => GeoResult.nothingFound) = none from rfl]
  refine ⟨?_, ?_, ?_⟩
  · exact (distance_pass_flag_characterization demoMatchNoPlace _ _).1
      (fun h => Bool.false_ne_true h.2.2)
  · exact (distance_pass_flag_characterization demoMatchOk _ _).2.1
      ⟨one_ne_zero, one_ne_zero, rfl⟩ _ hd
  · exact (distance_pass_flag_characterization demoMatchNF _ _).2.2
      ⟨one_ne_zero, one_ne_zero, rfl⟩ hnone
/-- A match whose vacancy geocodes to a coordinate that is exactly zero. -/
def demoMatchVacZero : MatchRec := ⟨⟨some 1, some 1⟩, ⟨some "Meridiaan", none⟩, none, false⟩

/-- C10 counterexample: when the geocoded vacancy latitude is exactly `0.0`,
the distance computation returns `None` — but the pass then leaves
`distance_computed = false`, not `true` as the claim states for this case. -/
theorem zero_vacancy_coordinate_counterexample :
    calculate_distance_for_match demoMatchVacZero (fun _ => GeoResult.found 0 5)
      (fun _ => GeoResult.found 0 5) = none ∧
    (process_match demoMatchVacZero (fun _ => GeoResult.found 0 5)
      (fun _ => GeoResult.found 0 5)).afstand_berekend = false := by
  have hcd : calculate_distance_for_match demoMatchVacZero (fun _ => GeoResult.found 0 5)
      (fun _ => GeoResult.found 0 5) = none := by
    unfold calculate_distance_for_match
    rw [if_neg (by decide : ¬(vacShortPlaats demoMatchVacZero.vacature.plaats = ""))]
    rw [show vacGeoLookup demoMatchVacZero.vacature (fun _ => GeoResult.found 0 5)
      (fun _ => GeoResult.found 0 5) = some (0, 5) from rfl]
    norm_num
  refine ⟨hcd, ?_⟩
  unfold process_match
  rw [if_pos ⟨one_ne_zero, one_ne_zero, rfl⟩, hcd]
  rfl

/-- C10 (amended): the coordinate presence checks use Python truthiness, so a
stored candidate coordinate of exactly `0.0` fails the guard and the match is
saved with a null distance and `distance_computed := true`; a geocoded
vacancy coordinate of exactly `0.0` likewise counts as no location, but there
the distance computation returns `None` and the match is left unchanged, with
`distance_computed` still `false`. -/
theorem zero_coordinate_truthiness (m : MatchRec)
    (pdok nominatim : String → GeoResult) :
    (m.kandidaat.latitude = some 0 ∨ m.kandidaat.longitude = some 0 →
      process_match m pdok nominatim =
        { m with afstand_km := none, afstand_berekend := true }) ∧
    (∀ lat2 lon2, hasLocGuard m →
      vacGeoLookup m.vacature pdok nominatim = some (lat2, lon2) →
      lat2 = 0 ∨ lon2 = 0 →
      calculate_distance_for_match m pdok nominatim = none ∧
      process_match m pdok nominatim = m) := by
  constructor
  · intro h
    have hng : ¬hasLocGuard m := by
      rcases h with h | h
      · intro hg
        have h1 := hg.1
        rw [h] at h1
        exact h1 rfl
      · intro hg
        have h1 := hg.2.1
        rw [h] at h1
        exact h1 rfl
    unfold process_match
    rw [if_neg hng]
  · intro lat2 lon2 hg hlook hzero
    have hcd : calculate_distance_for_match m pdok nominatim = none := by
      unfold calculate_distance_for_match
      by_cases hsp : vacShortPlaats m.vacature.plaats = ""
      · rw [if_pos hsp]
      · rw [if_neg hsp, hlook]
        show (if lat2 = 0 ∨ lon2 = 0 then none
          else match m.kandidaat.latitude, m.kandidaat.longitude with
            | some lat1, some lon1 =>
              if lat1 = 0 ∨ lon1 = 0 then none
              else some (haversine_distance lat1 lon1 lat2 lon2)
            | _, _ => none) = none
        rw [if_pos hzero]
    refine ⟨hcd, ?_⟩
    unfold process_match
    rw [if_pos hg, hcd]

/-- A match whose candidate has stored latitude exactly `0.0`. -/
def demoMatchLatZero : MatchRec := ⟨⟨some 0, some 4⟩, ⟨some "Gouda", none⟩, none, false⟩

/-- A second zero-geocode match for the witness. -/
def demoMatchVacZero2 : MatchRec := ⟨⟨some 3, some 4⟩, ⟨some "Equator", none⟩, none, false⟩

/-- C10 witness: both truthiness effects on concrete matches. -/
theorem zero_coordinate_truthiness_witness :
    process_match demoMatchLatZero (fun _ => GeoResult.nothingFound)
      (fun _ => GeoResult.nothingFound) =
      { demoMatchLatZero with afstand_km := none, afstand_berekend := true } ∧
    process_match demoMatchVacZero2 (fun _ => GeoResult.found 51 0)
      (fun _ => GeoResult.found 51 0) = demoMatchVacZero2 :=
  ⟨(zero_coordinate_truthiness demoMatchLatZero _ _).1 (Or.inl rfl),
   ((zero_coordinate_truthiness demoMatchVacZero2 (fun _ => GeoResult.found 51 0)
     (fun _ => GeoResult.found 51 0)).2 51 0
     ⟨three_ne_zero, four_ne_zero, rfl⟩ rfl (Or.inr rfl)).2⟩
/-! ### Matching engine (`generate_matches`, tasks.py lines 812-949)

The candidate/vacancy columns the engine reads, the Match rows it writes,
and the run itself.  The per-pair score abstracts
`round(calculate_cosine_similarity(...) * 100, 1)` as a rational-valued
function of the two embeddings (the similarity arithmetic itself is real-
valued and is verified separately); embeddings are lists of rationals, with
`none` for a NULL column.  String-typed embedding representations are
normalized to lists before the loops and are not distinguished here: the
source's blank-string and `"[]"` checks coincide with the empty-list check
under this normalization. -/

structure CandE where
  id : ℕ
  embedding : Option (List ℚ)
  embed_status : String
deriving DecidableEq

structure VacE where
  id : ℕ
  embedding : Option (List ℚ)
  actief : Bool
deriving DecidableEq

structure ScoredPair where
  cid : ℕ
  vid : ℕ
  score : ℚ
deriving DecidableEq

structure MatchRow where
  kandidaat : ℕ
  vacature : ℕ
  score : ℚ
  afstand_berekend : Bool
deriving DecidableEq

/-- `Candidate.objects.filter(embedding__isnull=False, embed_status='completed')`
(tasks.py lines 827-841; the SQLite branch only repeats the null filter). -/
def eligCands (cs : List CandE) : List CandE :=
  cs.filter (fun c => c.embedding.isSome && c.embed_status == "completed")

/-- `Vacature.objects.filter(embedding__isnull=False, actief=True)`
(tasks.py lines 832-846). -/
def eligVacs (vs : List VacE) : List VacE :=
  vs.filter (fun v => v.embedding.isSome && v.actief)

/-- The inner loop of the pair generation (tasks.py lines 857-897) for one
candidate: skip missing or empty embeddings on either side, score every
remaining vacancy, keep only pairs with positive score. -/
def pairsFor (score : List ℚ → List ℚ → ℚ) (vacs : List VacE) (c : CandE) :
    List ScoredPair :=
  match c.embedding with
  | none => []
  | some ce =>
    if ce.isEmpty then []
    else
      vacs.filterMap (fun v =>
        match v.embedding with
        | none => none
        | some ve =>
          if ve.isEmpty then none
          else if 0 < score ce ve then some ⟨c.id, v.id, score ce ve⟩ else none)

/-- `matches_data` (tasks.py lines 855-897): candidate-major,
vacancy-minor iteration. -/
def matchesData (score : List ℚ → List ℚ → ℚ) (cands : List CandE)
    (vacs : List VacE) : List ScoredPair :=
  cands.flatMap (pairsFor score vacs)

/-- The sort order of tasks.py line 900:
`matches_data.sort(key=lambda x: x['score'], reverse=True)`. -/
def scoreDesc (a b : ScoredPair) : Prop := b.score ≤ a.score

instance : DecidableRel scoreDesc :=
  fun a b => inferInstanceAs (Decidable (b.score ≤ a.score))

instance : IsTotal ScoredPair scoreDesc :=
  ⟨fun a b => le_total b.score a.score⟩

instance : IsTrans ScoredPair scoreDesc :=
  ⟨fun _ _ _ h1 h2 => le_trans h2 h1⟩

def pairKey (p : ScoredPair) : ℕ × ℕ := (p.cid, p.vid)

def rowKey (r : MatchRow) : ℕ × ℕ := (r.kandidaat, r.vacature)

/-- The Match row created for a selected pair (tasks.py lines 913-920):
`distance_computed = false`. -/
def toRow (p : ScoredPair) : MatchRow := ⟨p.cid, p.vid, p.score, false⟩

def rowPair (r : MatchRow) : ScoredPair := ⟨r.kandidaat, r.vacature, r.score⟩

/-- `Match.objects.get_or_create(kandidaat=..., vacature=..., defaults=...)`
followed by the update branch (tasks.py lines 911-929). -/
def getOrCreateRow (table : List MatchRow) (p : ScoredPair) : List MatchRow :=
  if table.any (fun r => r.kandidaat == p.cid && r.vacature == p.vid) then
    table.map (fun r =>
      if r.kandidaat == p.cid && r.vacature == p.vid then
        { r with score := p.score, afstand_berekend := false }
      else r)
  else table ++ [toRow p]

/-- `generate_matches()` (tasks.py lines 812-949): with no eligible
candidates or vacancies the run returns early and the Match table is left as
it was; otherwise all pairs are scored, non-positive scores discarded, the
survivors sorted by score descending, the top 250 kept, the entire Match
table deleted, and the kept pairs inserted. -/
def generate_matches (score : List ℚ → List ℚ → ℚ) (cs : List CandE)
    (vs : List VacE) (oldTable : List MatchRow) : List MatchRow :=
  if (eligCands cs).isEmpty || (eligVacs vs).isEmpty then oldTable
  else
    (((matchesData score (eligCands cs) (eligVacs vs)).insertionSort
      scoreDesc).take 250).foldl getOrCreateRow []
lemma pairsFor_mem {score : List ℚ → List ℚ → ℚ} {vacs : List VacE} {c : CandE}
    {p : ScoredPair} (hp : p ∈ pairsFor score vacs c) :
    p.cid = c.id ∧ 0 < p.score ∧ p.vid ∈ vacs.map VacE.id := by
  unfold pairsFor at hp
  split at hp
  · simp at hp
  · split at hp
    · simp at hp
    · rcases List.mem_filterMap.mp hp with ⟨v, hv, hfv⟩
      split at hfv
      · simp at hfv
      · split at hfv
        · simp at hfv
        · split at hfv
          · rename_i hs
            cases hfv
            exact ⟨rfl, hs, List.mem_map_of_mem _ hv⟩
          · simp at hfv

lemma mem_matchesData {score : List ℚ → List ℚ → ℚ} {cands : List CandE}
    {vacs : List VacE} {p : ScoredPair} (hp : p ∈ matchesData score cands vacs) :
    0 < p.score := by
  rcases List.mem_flatMap.mp hp with ⟨c, _, hpc⟩
  exact (pairsFor_mem hpc).2.1

/-- `vid` over `pairsFor` is a sublist of the vacancy ids. -/
lemma pairsFor_vids_sublist (score : List ℚ → List ℚ → ℚ) (vacs : List VacE)
    (c : CandE) :
    ((pairsFor score vacs c).map ScoredPair.vid).Sublist (vacs.map VacE.id) := by
  unfold pairsFor
  split
  · simp
  · split
    · simp
    · induction vacs with
      | nil => simp
      | cons v vacs ih =>
        rw [List.filterMap_cons]
        split
        · rw [List.map_cons]
          exact List.Sublist.cons _ ih
        · rename_i p hfp
          have hvid : p.vid = v.id := by
            split at hfp
            · simp at hfp
            · split at hfp
              · simp at hfp
              · split at hfp
                · cases hfp; rfl
                · simp at hfp
          rw [List.map_cons, List.map_cons, hvid]
          exact List.Sublist.cons₂ _ ih

/-- The pair keys produced by one matching run are pairwise distinct when the
candidate and vacancy ids are. -/
lemma matchesData_keys_nodup (score : List ℚ → List ℚ → ℚ)
    {cands : List CandE} {vacs : List VacE}
    (hc : (cands.map CandE.id).Nodup) (hv : (vacs.map VacE.id).Nodup) :
    ((matchesData score cands vacs).map pairKey).Nodup := by
  induction cands with
  | nil => simp [matchesData]
  | cons c cands ih =>
    rw [List.map_cons, List.nodup_cons] at hc
    unfold matchesData
    rw [List.flatMap_cons, List.map_append, List.nodup_append]
    refine ⟨?_, ih hc.2, ?_⟩
    · have hvids : ((pairsFor score vacs c).map ScoredPair.vid).Nodup :=
        List.Nodup.sublist (pairsFor_vids_sublist score vacs c) hv
      have hmapmap : ((pairsFor score vacs c).map pairKey).map Prod.snd =
          (pairsFor score vacs c).map ScoredPair.vid := by
        rw [List.map_map]; rfl
      exact List.Nodup.of_map Prod.snd (by rw [hmapmap]; exact hvids)
    · intro k hk1 hk2
      rcases List.mem_map.mp hk1 with ⟨p, hp, rfl⟩
      rcases List.mem_map.mp hk2 with ⟨q, hq, hkeq⟩
      rcases List.mem_flatMap.mp hq with ⟨c', hc', hq'⟩
      have h1 : p.cid = c.id := (pairsFor_mem hp).1
      have h2 : q.cid = c'.id := (pairsFor_mem hq').1
      have h3 : q.cid = p.cid := congrArg Prod.fst hkeq
      apply hc.1
      rw [← h1, ← h3, h2]
      exact List.mem_map_of_mem _ hc'

lemma getOrCreateRow_fresh (table : List MatchRow) (p : ScoredPair)
    (h : ∀ r ∈ table, rowKey r ≠ pairKey p) :
    getOrCreateRow table p = table ++ [toRow p] := by
  unfold getOrCreateRow
  have hany : table.any (fun r => r.kandidaat == p.cid && r.vacature == p.vid) = false := by
    rw [List.any_eq_false]
    intro r hr hb
    rcases (by simpa using hb : r.kandidaat = p.cid ∧ r.vacature = p.vid) with ⟨h1, h2⟩
    apply h r hr
    unfold rowKey pairKey
    rw [h1, h2]
  rw [hany]
  rfl

lemma foldl_getOrCreate (l : List ScoredPair) (table : List MatchRow)
    (hnd : (l.map pairKey).Nodup)
    (hfresh : ∀ r ∈ table, ∀ p ∈ l, rowKey r ≠ pairKey p) :
    l.foldl getOrCreateRow table = table ++ l.map toRow := by
  induction l generalizing table with
  | nil => simp
  | cons p rest ih =>
    rw [List.map_cons, List.nodup_cons] at hnd
    rw [List.foldl_cons,
      getOrCreateRow_fresh table p (fun r hr => hfresh r hr p (List.mem_cons_self p rest)),
      ih (table ++ [toRow p]) hnd.2 ?_]
    · simp
    · intro r hr q hq
      rcases List.mem_append.mp hr with h | h
      · exact hfresh r h q (List.mem_cons_of_mem _ hq)
      · have hrp : r = toRow p := by simpa using h
        subst hrp
        show pairKey p ≠ pairKey q
        intro hpq
        exact hnd.1 (hpq ▸ List.mem_map_of_mem pairKey hq)
/-- C1: a matching run over a non-empty set of eligible candidates and
vacancies with distinct ids replaces the entire Match table (the old table
does not influence the result), yields exactly
`min 250 (number of positive-scoring pairs)` rows, every stored row has a
positive score, and the scored pairs split into the stored rows plus
unselected pairs whose scores never exceed any stored row's score. -/
theorem generate_matches_replaces_table (score : List ℚ → List ℚ → ℚ)
    (cs : List CandE) (vs : List VacE) (oldTable : List MatchRow)
    (hc : (cs.map CandE.id).Nodup) (hv : (vs.map VacE.id).Nodup)
    (hcne : (eligCands cs).isEmpty = false) (hvne : (eligVacs vs).isEmpty = false) :
    generate_matches score cs vs oldTable = generate_matches score cs vs [] ∧
    (generate_matches score cs vs oldTable).length =
      min 250 (matchesData score (eligCands cs) (eligVacs vs)).length ∧
    (∀ r ∈ generate_matches score cs vs oldTable, 0 < r.score) ∧
    ∃ unsel : List ScoredPair,
      (matchesData score (eligCands cs) (eligVacs vs)).Perm
        ((generate_matches score cs vs oldTable).map rowPair ++ unsel) ∧
      ∀ r ∈ generate_matches score cs vs oldTable, ∀ p ∈ unsel,
        p.score ≤ r.score := by
  have hng : ¬(((eligCands cs).isEmpty || (eligVacs vs).isEmpty) = true) := by
    rw [hcne, hvne]
    decide
  have hperm : ((matchesData score (eligCands cs) (eligVacs vs)).insertionSort
      scoreDesc).Perm (matchesData score (eligCands cs) (eligVacs vs)) :=
    List.perm_insertionSort _ _
  have hsort : ((matchesData score (eligCands cs) (eligVacs vs)).insertionSort
      scoreDesc).Sorted scoreDesc := List.sorted_insertionSort _ _
  have hkc : ((eligCands cs).map CandE.id).Nodup :=
    List.Nodup.sublist (List.Sublist.map _ (List.filter_sublist cs)) hc
  have hkv : ((eligVacs vs).map VacE.id).Nodup :=
    List.Nodup.sublist (List.Sublist.map _ (List.filter_sublist vs)) hv
  have hkeys : ((matchesData score (eligCands cs) (eligVacs vs)).map pairKey).Nodup :=
    matchesData_keys_nodup score hkc hkv
  have hskeys : ((((matchesData score (eligCands cs) (eligVacs vs)).insertionSort
      scoreDesc)).map pairKey).Nodup :=
    ((hperm.map pairKey).nodup_iff).mpr hkeys
  have htkeys : (((((matchesData score (eligCands cs) (eligVacs vs)).insertionSort
      scoreDesc)).take 250).map pairKey).Nodup :=
    List.Nodup.sublist (List.Sublist.map _ (List.take_sublist _ _)) hskeys
  have hfold : ((((matchesData score (eligCands cs) (eligVacs vs)).insertionSort
      scoreDesc)).take 250).foldl getOrCreateRow [] =
      ((((matchesData score (eligCands cs) (eligVacs vs)).insertionSort
      scoreDesc)).take 250).map toRow := by
    have := foldl_getOrCreate ((((matchesData score (eligCands cs)
      (eligVacs vs)).insertionSort scoreDesc)).take 250) [] htkeys
      (by intro r hr; simp at hr)
    simpa using this
  have hgen : generate_matches score cs vs oldTable =
      ((((matchesData score (eligCands cs) (eligVacs vs)).insertionSort
      scoreDesc)).take 250).map toRow := by
    unfold generate_matches
    rw [if_neg hng]
    exact hfold
  refine ⟨?_, ?_, ?_, ?_⟩
  · rw [hgen]
    unfold generate_matches
    rw [if_neg hng]
    exact hfold.symm
  · rw [hgen, List.length_map, List.length_take, hperm.length_eq]
  · intro r hr
    rw [hgen] at hr
    rcases List.mem_map.mp hr with ⟨p, hp, rfl⟩
    have hpd : p ∈ matchesData score (eligCands cs) (eligVacs vs) :=
      hperm.subset (List.take_subset _ _ hp)
    exact mem_matchesData hpd
  · refine ⟨(((matchesData score (eligCands cs) (eligVacs vs)).insertionSort
      scoreDesc)).drop 250, ?_, ?_⟩
    · rw [hgen, List.map_map]
      have hcomp : rowPair ∘ toRow = id := funext fun p => rfl
      rw [hcomp, List.map_id, List.take_append_drop]
      exact hperm.symm
    · intro r hr p hp
      rw [hgen] at hr
      rcases List.mem_map.mp hr with ⟨q, hq, rfl⟩
      have hpw : List.Pairwise scoreDesc
          ((((matchesData score (eligCands cs) (eligVacs vs)).insertionSort
          scoreDesc)).take 250 ++
          (((matchesData score (eligCands cs) (eligVacs vs)).insertionSort
          scoreDesc)).drop 250) := by
        rw [List.take_append_drop]
        exact hsort
      exact (List.pairwise_append.mp hpw).2.2 q hq p hp
/-- 30 completed candidates with one-dimensional embeddings. -/
def demoCands : List CandE := (List.range 30).map (fun i => ⟨i, some [1], "completed"⟩)

/-- 10 active vacancies with one-dimensional embeddings. -/
def demoVacs : List VacE := (List.range 10).map (fun i => ⟨i, some [1], true⟩)

set_option maxRecDepth 8000 in
/-- C1 witness: 300 positive-scoring pairs leave exactly 250 Match rows, and
the pre-existing Match row does not survive the run. -/
theorem generate_matches_replaces_table_witness :
    (generate_matches (fun _ _ => (1 : ℚ)) demoCands demoVacs
      [⟨31, 11, 5, true⟩]).length = 250 ∧
    generate_matches (fun _ _ => (1 : ℚ)) demoCands demoVacs [⟨31, 11, 5, true⟩] =
      generate_matches (fun _ _ => (1 : ℚ)) demoCands demoVacs [] := by
  have h := generate_matches_replaces_table (fun _ _ => (1 : ℚ)) demoCands demoVacs
    [⟨31, 11, 5, true⟩] (by decide) (by decide) (by decide) (by decide)
  refine ⟨?_, h.1⟩
  rw [h.2.1]
  decide
